import Mathlib

/-!
Shallow embedding of the `bevy_ufbx` FBX-to-Bevy asset mapping pipeline
(`src/loader.rs`, `src/material.rs`) and proofs about it.

Modelling conventions:
* Rust `f64`/`f32` values are embedded as `ℚ`; the `as f32` narrowing casts in
  the source are embedded as the identity.
* `std::collections::HashMap` is embedded as an association list where `insert`
  removes any previous binding of the key and prepends the new one, and lookup
  returns the first binding.
* `std::panic::catch_unwind` around a ufbx property access is embedded by making
  the property an `Option`: `some` is a successful access, `none` a panic.
* `bevy` asset handles are embedded by their identifying data: an image handle
  by the asset path string it was loaded from, a labeled material handle by its
  label index together with the registered material value.
-/

set_option autoImplicit false

namespace BevyUfbx

/-- Association-list embedding of `HashMap::insert`: the new binding replaces
any previous binding of the same key. -/
def mapInsert {κ ν : Type} [DecidableEq κ] (m : List (κ × ν)) (k : κ) (v : ν) :
    List (κ × ν) :=
  (k, v) :: m.filter (fun p => p.1 ≠ k)

/-- Association-list embedding of `HashMap::get`. -/
def mapGet {κ ν : Type} [DecidableEq κ] (m : List (κ × ν)) (k : κ) : Option ν :=
  (m.find? (fun p => decide (p.1 = k))).map (fun p => p.2)

/-- A `ufbx::Vec4` property value (`value_vec4`), components embedded as `ℚ`. -/
structure Vec4 where
  x : ℚ
  y : ℚ
  z : ℚ
  w : ℚ
deriving DecidableEq, Repr

/-- A Bevy `Color`, embedded as sRGBA components. -/
structure Color where
  red : ℚ
  green : ℚ
  blue : ℚ
  alpha : ℚ
deriving DecidableEq, Repr

/-- `Color::srgb(r, g, b)`: alpha defaults to 1. -/
def Color.srgb (r g b : ℚ) : Color := ⟨r, g, b, 1⟩

/-- `Color::WHITE`, the external default `StandardMaterial::base_color`. -/
def Color.WHITE : Color := ⟨1, 1, 1, 1⟩

/-- A Bevy `LinearRgba` color. -/
structure LinearRgba where
  red : ℚ
  green : ℚ
  blue : ℚ
  alpha : ℚ
deriving DecidableEq, Repr

/-- `LinearRgba::rgb(r, g, b)`: alpha defaults to 1. -/
def LinearRgba.rgb (r g b : ℚ) : LinearRgba := ⟨r, g, b, 1⟩

/-- `LinearRgba::BLACK`, the external default `StandardMaterial::emissive`. -/
def LinearRgba.BLACK : LinearRgba := ⟨0, 0, 0, 1⟩

/-- Bevy `AlphaMode`; only the variants used by `src/material.rs`. -/
inductive AlphaMode where
  | Opaque
  | Blend
deriving DecidableEq, Repr

/-- Modelled from the spec: the material UV transform ("optional UV transform
(offset/scale/rotation)").  The Bevy type is `Affine2`; its construction from
the texture lives in `src/utils.rs`, which is not among the sources, so the
transform is embedded abstractly as offset/scale/rotation data. -/
structure UvTransform where
  offset_x : ℚ
  offset_y : ℚ
  scale_x : ℚ
  scale_y : ℚ
  rotation : ℚ
deriving DecidableEq, Repr

/-- `Affine2::IDENTITY`, the external default `StandardMaterial::uv_transform`. -/
def UvTransform.identity : UvTransform := ⟨0, 0, 1, 1, 0⟩

/-- Bevy `RenderAssetUsages` bitflags (`MAIN_WORLD`, `RENDER_WORLD`). -/
structure RenderAssetUsages where
  main_world : Bool
  render_world : Bool
deriving DecidableEq, Repr

/-- `RenderAssetUsages::is_empty`: no flag set. -/
def RenderAssetUsages.isEmptyUsage (u : RenderAssetUsages) : Bool :=
  !u.main_world && !u.render_world

/-- `RenderAssetUsages::default()`: both worlds. -/
def RenderAssetUsages.default : RenderAssetUsages := ⟨true, true⟩

/-- An image asset handle, identified by the path it was requested from
(`load_context.load(texture_path)`). -/
abbrev ImageHandle := String

/-- A `ufbx::Element` header: decoder-assigned identity and source name. -/
structure Element where
  element_id : Nat
  name : String
deriving DecidableEq, Repr

/-- A decoded `ufbx::Texture`.  `uv_placement` is the texture UV placement data
consumed by `convert_texture_uv_transform` (see `UvTransform`). -/
structure UfbxTexture where
  element : Element
  filename : String
  absolute_filename : String
  uv_placement : UvTransform
deriving DecidableEq, Repr

/-- A `ufbx::MaterialMap` whose access always succeeds (`opacity`). -/
structure MaterialMap where
  value_vec4 : Vec4
deriving DecidableEq, Repr

/-- A material-to-texture reference (`ufbx::MaterialTexture`): the declared
material property name and the referenced texture. -/
structure TextureRef where
  material_prop : String
  texture : UfbxTexture
deriving DecidableEq, Repr

/-- The classic FBX property maps read by `create_standard_material`
(`ufbx_material.fbx.*`); accesses are wrapped in `catch_unwind` in the source,
embedded here as `Option` (`none` = the access panicked / property absent). -/
structure FbxMaps where
  diffuse_color : Option MaterialMap
  emission_color : Option MaterialMap
deriving DecidableEq, Repr

/-- The PBR property maps read by `create_standard_material`
(`ufbx_material.pbr.*`).  `base_color`, `metalness` and `roughness` accesses
are wrapped in `catch_unwind` (embedded as `Option`); `opacity` is accessed
directly. -/
structure PbrMaps where
  base_color : Option MaterialMap
  metalness : Option MaterialMap
  roughness : Option MaterialMap
  opacity : MaterialMap
deriving DecidableEq, Repr

/-- A decoded `ufbx::Material`. -/
structure UfbxMaterial where
  element : Element
  fbx : FbxMaps
  pbr : PbrMaps
  textures : List TextureRef
deriving DecidableEq, Repr

/-- The decoded `ufbx::Scene`, restricted to the collections read by the
embedded sources (`src/material.rs`); the remaining collections are consumed
only by modules not among the sources, which are modelled as opaque mapper
parameters of `FbxLoader.load`. -/
structure Scene where
  materials : List UfbxMaterial
  textures : List UfbxTexture
deriving DecidableEq, Repr

/-- Bevy `StandardMaterial`, restricted to the fields written by
`create_standard_material`. -/
structure StandardMaterial where
  base_color : Color
  metallic : ℚ
  perceptual_roughness : ℚ
  emissive : LinearRgba
  alpha_mode : AlphaMode
  base_color_texture : Option ImageHandle
  normal_map_texture : Option ImageHandle
  metallic_roughness_texture : Option ImageHandle
  emissive_texture : Option ImageHandle
  occlusion_texture : Option ImageHandle
  uv_transform : UvTransform
deriving DecidableEq, Repr

/-- `StandardMaterial::default()` (external Bevy defaults for the embedded
fields: white base color, metallic 0, perceptual roughness 0.5, black
emissive, opaque alpha, no textures, identity UV transform). -/
def StandardMaterial.default : StandardMaterial where
  base_color := Color.WHITE
  metallic := 0
  perceptual_roughness := 1/2
  emissive := LinearRgba.BLACK
  alpha_mode := AlphaMode.Opaque
  base_color_texture := none
  normal_map_texture := none
  metallic_roughness_texture := none
  emissive_texture := none
  occlusion_texture := none
  uv_transform := UvTransform.identity

/-- Error type of the loader (`crate::error::FbxError`); `src/error.rs` is not
among the sources, but `src/loader.rs` constructs exactly these two variants
(the spec calls them `InvalidInput` and `DecodeError`). -/
inductive FbxError where
  | InvalidData (msg : String)
  | UfbxError (msg : String)
deriving DecidableEq, Repr

/-- Modelled from the spec: `convert_texture_uv_transform` lives in
`src/utils.rs`, which is not among the sources; per the spec the base-color
texture "carries a derived UV transform from that texture's UV placement", so
it is embedded as extracting the texture's UV placement data. -/
def convert_texture_uv_transform (texture : UfbxTexture) : UvTransform :=
  texture.uv_placement

/-- The loader context data read by the embedded sources:
`load_context.path().parent()` (the directory containing the FBX file), and
the path-join operation of `std::path::PathBuf::join` (external, kept
abstract as a function parameter of the context). -/
structure LoadContext where
  parent_dir : Option String
  pathJoin : String → String → String

/-- The resolved on-disk path for one texture, as computed inside the loop of
`process_textures`: prefer a non-empty `absolute_filename`, else join the
relative `filename` to the FBX file's directory (empty string when the FBX
path has no parent). -/
def texture_path (ctx : LoadContext) (texture : UfbxTexture) : String :=
  if texture.absolute_filename ≠ "" then
    texture.absolute_filename
  else
    let fbx_dir := match ctx.parent_dir with
      | some parent => parent
      | none => ""
    ctx.pathJoin fbx_dir texture.filename

/-- The loop body of `process_textures`: a texture with a non-empty `filename`
resolves its path and inserts the requested image handle keyed by its
`element_id`; a texture with an empty `filename` is skipped. -/
def textures_step (ctx : LoadContext) (acc : List (Nat × ImageHandle))
    (texture : UfbxTexture) : List (Nat × ImageHandle) :=
  if texture.filename ≠ "" then
    mapInsert acc texture.element.element_id (texture_path ctx texture)
  else
    acc

/-- `process_textures` from `src/material.rs`: builds the map from texture
`element_id` to the image handle requested for its resolved path.  The source
always returns `Ok`. -/
def process_textures (scene : Scene) (ctx : LoadContext) :
    Except FbxError (List (Nat × ImageHandle)) :=
  Except.ok (scene.textures.foldl (textures_step ctx) [])

/-- The body of the texture loop of `create_standard_material`: one
material-texture reference updates the texture slots (and, for a base-color
reference, the UV transform) when the referenced texture has a resolved image
handle. -/
def apply_texture_ref (texture_handles : List (Nat × ImageHandle))
    (material : StandardMaterial) (texture_ref : TextureRef) : StandardMaterial :=
  match mapGet texture_handles texture_ref.texture.element.element_id with
  | some image_handle =>
    match texture_ref.material_prop with
    | "DiffuseColor" | "BaseColor" =>
      { material with
          base_color_texture := some image_handle
          uv_transform := convert_texture_uv_transform texture_ref.texture }
    | "NormalMap" => { material with normal_map_texture := some image_handle }
    | "Metallic" => { material with metallic_roughness_texture := some image_handle }
    | "Roughness" =>
      if material.metallic_roughness_texture.isNone then
        { material with metallic_roughness_texture := some image_handle }
      else
        material
    | "EmissiveColor" => { material with emissive_texture := some image_handle }
    | "AmbientOcclusion" => { material with occlusion_texture := some image_handle }
    | _ => material
  | none => material

/-- The `// Base color` statement of `create_standard_material`: prefer the
classic diffuse color, fall back to the PBR base color. -/
def base_color_update (ufbx_material : UfbxMaterial)
    (material : StandardMaterial) : StandardMaterial :=
  match ufbx_material.fbx.diffuse_color with
  | some diffuse =>
    { material with
        base_color := Color.srgb diffuse.value_vec4.x diffuse.value_vec4.y
          diffuse.value_vec4.z }
  | none =>
    match ufbx_material.pbr.base_color with
    | some pbr_base =>
      { material with
          base_color := Color.srgb pbr_base.value_vec4.x pbr_base.value_vec4.y
            pbr_base.value_vec4.z }
    | none => material

/-- The metallic statement of `create_standard_material`. -/
def metallic_update (ufbx_material : UfbxMaterial)
    (material : StandardMaterial) : StandardMaterial :=
  match ufbx_material.pbr.metalness with
  | some metallic => { material with metallic := metallic.value_vec4.x }
  | none => material

/-- The roughness statement of `create_standard_material`. -/
def roughness_update (ufbx_material : UfbxMaterial)
    (material : StandardMaterial) : StandardMaterial :=
  match ufbx_material.pbr.roughness with
  | some roughness =>
    { material with perceptual_roughness := roughness.value_vec4.x }
  | none => material

/-- The `// Emission` statement of `create_standard_material`. -/
def emission_update (ufbx_material : UfbxMaterial)
    (material : StandardMaterial) : StandardMaterial :=
  match ufbx_material.fbx.emission_color with
  | some emission =>
    { material with
        emissive := LinearRgba.rgb emission.value_vec4.x emission.value_vec4.y
          emission.value_vec4.z }
  | none => material

/-- The `// Alpha` statement of `create_standard_material`: opacity below 1
sets the alpha mode (blend below the 0.98 threshold, else opaque); opacity at
least 1 leaves the field untouched. -/
def alpha_update (ufbx_material : UfbxMaterial)
    (material : StandardMaterial) : StandardMaterial :=
  if ufbx_material.pbr.opacity.value_vec4.x < 1 then
    let alpha := ufbx_material.pbr.opacity.value_vec4.x
    { material with
        alpha_mode := if alpha < 98/100 then AlphaMode.Blend else AlphaMode.Opaque }
  else material

/-- The pure body of `create_standard_material` from `src/material.rs` (the
source wraps this value in `Ok`): the field-update statements in source
order, then the texture loop. -/
def build_standard_material (ufbx_material : UfbxMaterial)
    (texture_handles : List (Nat × ImageHandle)) : StandardMaterial :=
  ufbx_material.textures.foldl (apply_texture_ref texture_handles)
    (alpha_update ufbx_material
      (emission_update ufbx_material
        (roughness_update ufbx_material
          (metallic_update ufbx_material
            (base_color_update ufbx_material StandardMaterial.default)))))

/-- `create_standard_material` from `src/material.rs`. -/
def create_standard_material (ufbx_material : UfbxMaterial)
    (texture_handles : List (Nat × ImageHandle)) : Except FbxError StandardMaterial :=
  Except.ok (build_standard_material ufbx_material texture_handles)

/-- A handle to a registered labeled material sub-asset
(`load_context.add_labeled_asset(FbxAssetLabel::Material(index).to_string(), …)`):
identified by the index in its `Material<index>` label, paired with the
registered material value. -/
structure MaterialHandle where
  label_index : Nat
  asset : StandardMaterial
deriving DecidableEq, Repr

/-- The material loop of `process_materials`, over the `enumerate()`d decoded
material list: a material with `element_id` 0 is skipped; otherwise its
`StandardMaterial` is created (propagating errors, as the `?` in the source),
registered under its index label, recorded in the name-keyed map when its
source name is non-empty, and pushed onto the ordered collection. -/
def process_materials_loop (texture_handles : List (Nat × ImageHandle)) :
    List (Nat × UfbxMaterial) → List MaterialHandle →
    List (String × MaterialHandle) →
    Except FbxError (List MaterialHandle × List (String × MaterialHandle))
  | [], materials, named_materials => Except.ok (materials, named_materials)
  | (index, ufbx_material) :: rest, materials, named_materials =>
    if ufbx_material.element.element_id = 0 then
      process_materials_loop texture_handles rest materials named_materials
    else
      match create_standard_material ufbx_material texture_handles with
      | Except.error e => Except.error e
      | Except.ok standard_material =>
        let handle : MaterialHandle := ⟨index, standard_material⟩
        let named_materials := if ufbx_material.element.name ≠ "" then
            mapInsert named_materials ufbx_material.element.name handle
          else
            named_materials
        process_materials_loop texture_handles rest (materials ++ [handle])
          named_materials

/-- `process_materials` from `src/material.rs`.  The `settings` parameter is
`_settings` in the source: received but never read. -/
def process_materials {σ : Type} (scene : Scene) (_settings : σ)
    (ctx : LoadContext) :
    Except FbxError (List MaterialHandle × List (String × MaterialHandle)) :=
  match process_textures scene ctx with
  | Except.error e => Except.error e
  | Except.ok texture_handles =>
    process_materials_loop texture_handles scene.materials.enum [] []

/-- `FbxLoaderSettings` from `src/loader.rs`. -/
structure FbxLoaderSettings where
  load_meshes : RenderAssetUsages
  load_materials : RenderAssetUsages
  load_cameras : Bool
  load_lights : Bool
  include_source : Bool
  convert_coordinates : Bool
deriving DecidableEq, Repr

/-- `FbxLoaderSettings::default()`. -/
def FbxLoaderSettings.default : FbxLoaderSettings where
  load_meshes := RenderAssetUsages.default
  load_materials := RenderAssetUsages.default
  load_cameras := true
  load_lights := true
  include_source := false
  convert_coordinates := false

/-- Modelled from the spec: the view of the settings consumed by the mapper
modules that are not among the sources (`src/mesh.rs`, `src/node.rs`,
`src/scene.rs`).  Per the spec, `load_cameras` and `load_lights` are "unused
by the mapping pipeline shown", so the view omits exactly those two flags. -/
structure MapperSettings where
  load_meshes : RenderAssetUsages
  load_materials : RenderAssetUsages
  include_source : Bool
  convert_coordinates : Bool
deriving DecidableEq, Repr

/-- The settings view handed to the absent mapper modules. -/
def FbxLoaderSettings.mapperView (s : FbxLoaderSettings) : MapperSettings :=
  ⟨s.load_meshes, s.load_materials, s.include_source, s.convert_coordinates⟩

/-- One pipeline stage invoked by `FbxLoader::load`, in the order the source
invokes them; `FbxLoader.load` returns the trace of stages it ran. -/
inductive Step where
  | decode
  | meshes
  | materials
  | nodes
  | skins
  | scene_build
deriving DecidableEq, Repr

/-- A Bevy `Vec3`, components embedded as `ℚ`. -/
structure Vec3 where
  x : ℚ
  y : ℚ
  z : ℚ
deriving DecidableEq, Repr

/-- `Vec3::Y`. -/
def Vec3.axisY : Vec3 := ⟨0, 1, 0⟩

/-- `Vec3::Z`. -/
def Vec3.axisZ : Vec3 := ⟨0, 0, 1⟩

/-- `Handedness` from `src/types.rs` (not among the sources; `src/loader.rs`
uses the `Right` variant, and the spec names right- and left-handedness). -/
inductive Handedness where
  | Right
  | Left
deriving DecidableEq, Repr

/-- `FbxAxisSystem` from `src/types.rs`, as constructed in `src/loader.rs`. -/
structure FbxAxisSystem where
  up : Vec3
  front : Vec3
  handedness : Handedness
deriving DecidableEq, Repr

/-- `FbxMeta` from `src/types.rs` (not among the sources; `src/loader.rs` only
constructs `FbxMeta::default()`), embedded as an opaque default record. -/
structure FbxMeta where
deriving DecidableEq, Repr

/-- The final `Fbx` asset, with the fields `src/loader.rs` constructs.  The
element types of the collections produced by the absent mapper modules are
parameters: `M` mesh handles, `N` node handles, `K` skin handles, `S` scene
handles. -/
structure Fbx (M N K S : Type) where
  scenes : List S
  named_scenes : List (String × S)
  meshes : List M
  named_meshes : List (String × M)
  materials : List MaterialHandle
  named_materials : List (String × MaterialHandle)
  nodes : List N
  named_nodes : List (String × N)
  skins : List K
  named_skins : List (String × K)
  default_scene : Option S
  axis_system : FbxAxisSystem
  unit_scale : ℚ
  metadata : FbxMeta
deriving DecidableEq, Repr

/-- The mapper functions `FbxLoader::load` drives that live in modules not
among the sources, modelled from the spec as opaque functions of the data the
source passes them (with the settings restricted to `MapperSettings`, see
there).  Output types: `M`/`N`/`K`/`S` as in `Fbx`; `X` the mesh transform
table, `I` the mesh material-info table, `NM` the node identity map. -/
structure Mappers (M X I N NM K S : Type) where
  process_meshes : Scene → MapperSettings → LoadContext →
    Except FbxError (List M × List (String × M) × X × I)
  process_nodes : Scene → List M → LoadContext →
    Except FbxError (List N × List (String × N) × NM)
  process_skins : Scene → NM → LoadContext →
    Except FbxError (List K × List (String × K))
  build_scene : Scene → List M → List MaterialHandle →
    List (String × MaterialHandle) → X → I → MapperSettings → LoadContext →
    Except FbxError S

/-- Lines 100–141 of `src/loader.rs`: the tail of `FbxLoader::load` after the
material step — process nodes, process skins, build the scene, and package
the final `Fbx` asset.  `tr` is the trace of the stages already run. -/
def load_tail {M X I N NM K S : Type} (mp : Mappers M X I N NM K S)
    (scene : Scene) (meshes : List M) (named_meshes : List (String × M))
    (mesh_transforms : X) (mesh_material_info : I)
    (materials : List MaterialHandle)
    (named_materials : List (String × MaterialHandle))
    (settings : FbxLoaderSettings) (ctx : LoadContext) (tr : List Step) :
    Except FbxError (Fbx M N K S) × List Step :=
  -- Process nodes and hierarchy
  match mp.process_nodes scene meshes ctx with
  | Except.error e => (Except.error e, tr ++ [Step.nodes])
  | Except.ok (nodes, named_nodes, node_map) =>
    -- Process skins
    match mp.process_skins scene node_map ctx with
    | Except.error e => (Except.error e, tr ++ [Step.nodes, Step.skins])
    | Except.ok (skins, named_skins) =>
      -- Build scene
      match mp.build_scene scene meshes materials named_materials
          mesh_transforms mesh_material_info settings.mapperView ctx with
      | Except.error e =>
        (Except.error e, tr ++ [Step.nodes, Step.skins, Step.scene_build])
      | Except.ok scene_handle =>
        -- Build final FBX asset
        (Except.ok
          { scenes := [scene_handle]
            named_scenes := []
            meshes := meshes
            named_meshes := named_meshes
            materials := materials
            named_materials := named_materials
            nodes := nodes
            named_nodes := named_nodes
            skins := skins
            named_skins := named_skins
            default_scene := some scene_handle
            axis_system :=
              { up := Vec3.axisY
                front := Vec3.axisZ
                handedness := Handedness.Right }
            unit_scale := 1
            metadata := {} },
          tr ++ [Step.nodes, Step.skins, Step.scene_build])

/-- `FbxLoader::load` from `src/loader.rs`, embedded over the already-read
byte buffer (the async file read precedes the embedded logic).  `decode` is
the external `ufbx::load_memory` with the fixed normalization options, its
error already formatted to its diagnostic string (`format!("{:?}", e)`).
Besides the load result, the embedding returns the ordered trace of pipeline
stages that were invoked. -/
def FbxLoader.load {M X I N NM K S : Type} (mp : Mappers M X I N NM K S)
    (decode : List Nat → Except String Scene) (bytes : List Nat)
    (settings : FbxLoaderSettings) (ctx : LoadContext) :
    Except FbxError (Fbx M N K S) × List Step :=
  -- Basic validation
  if bytes.isEmpty then
    (Except.error (FbxError.InvalidData "Empty FBX file"), [])
  else if bytes.length < 32 then
    (Except.error (FbxError.InvalidData "FBX file too small"), [])
  else
    -- Parse with ufbx
    match decode bytes with
    | Except.error e => (Except.error (FbxError.UfbxError e), [Step.decode])
    | Except.ok scene =>
      -- Process meshes
      match mp.process_meshes scene settings.mapperView ctx with
      | Except.error e => (Except.error e, [Step.decode, Step.meshes])
      | Except.ok (meshes, named_meshes, mesh_transforms, mesh_material_info) =>
        -- Process materials and textures
        if !settings.load_materials.isEmptyUsage then
          match process_materials scene settings ctx with
          | Except.error e =>
            (Except.error e, [Step.decode, Step.meshes, Step.materials])
          | Except.ok (materials, named_materials) =>
            load_tail mp scene meshes named_meshes mesh_transforms
              mesh_material_info materials named_materials settings ctx
              [Step.decode, Step.meshes, Step.materials]
        else
          load_tail mp scene meshes named_meshes mesh_transforms
            mesh_material_info [] [] settings ctx [Step.decode, Step.meshes]

/-! ### Helper lemmas about the texture loop of `create_standard_material` -/

theorem apply_texture_ref_alpha_mode (th : List (Nat × ImageHandle))
    (material : StandardMaterial) (r : TextureRef) :
    (apply_texture_ref th material r).alpha_mode = material.alpha_mode := by
  unfold apply_texture_ref
  split
  · split <;> first | rfl | (split <;> rfl)
  · rfl

theorem apply_texture_ref_base_color (th : List (Nat × ImageHandle))
    (material : StandardMaterial) (r : TextureRef) :
    (apply_texture_ref th material r).base_color = material.base_color := by
  unfold apply_texture_ref
  split
  · split <;> first | rfl | (split <;> rfl)
  · rfl

theorem foldl_texture_refs_alpha_mode (th : List (Nat × ImageHandle))
    (refs : List TextureRef) (material : StandardMaterial) :
    (refs.foldl (apply_texture_ref th) material).alpha_mode =
      material.alpha_mode := by
  induction refs generalizing material with
  | nil => rfl
  | cons r rest ih => simp [List.foldl_cons, ih, apply_texture_ref_alpha_mode]

theorem foldl_texture_refs_base_color (th : List (Nat × ImageHandle))
    (refs : List TextureRef) (material : StandardMaterial) :
    (refs.foldl (apply_texture_ref th) material).base_color =
      material.base_color := by
  induction refs generalizing material with
  | nil => rfl
  | cons r rest ih => simp [List.foldl_cons, ih, apply_texture_ref_base_color]

/-! ### Helper lemmas about the field-update statements -/

theorem base_color_update_alpha_mode (m : UfbxMaterial) (mat : StandardMaterial) :
    (base_color_update m mat).alpha_mode = mat.alpha_mode := by
  unfold base_color_update
  split
  · rfl
  · split <;> rfl

theorem metallic_update_alpha_mode (m : UfbxMaterial) (mat : StandardMaterial) :
    (metallic_update m mat).alpha_mode = mat.alpha_mode := by
  unfold metallic_update
  split <;> rfl

theorem roughness_update_alpha_mode (m : UfbxMaterial) (mat : StandardMaterial) :
    (roughness_update m mat).alpha_mode = mat.alpha_mode := by
  unfold roughness_update
  split <;> rfl

theorem emission_update_alpha_mode (m : UfbxMaterial) (mat : StandardMaterial) :
    (emission_update m mat).alpha_mode = mat.alpha_mode := by
  unfold emission_update
  split <;> rfl

theorem alpha_update_alpha_mode (m : UfbxMaterial) (mat : StandardMaterial) :
    (alpha_update m mat).alpha_mode =
      if m.pbr.opacity.value_vec4.x < 1 then
        (if m.pbr.opacity.value_vec4.x < 98/100 then AlphaMode.Blend
          else AlphaMode.Opaque)
      else mat.alpha_mode := by
  unfold alpha_update
  split <;> rfl

/-- The alpha mode of the converted material, as a function of the decoded
opacity alone: it is never touched by any other statement of
`create_standard_material`. -/
theorem build_standard_material_alpha_mode (m : UfbxMaterial)
    (th : List (Nat × ImageHandle)) :
    (build_standard_material m th).alpha_mode =
      if m.pbr.opacity.value_vec4.x < 1 then
        (if m.pbr.opacity.value_vec4.x < 98/100 then AlphaMode.Blend
          else AlphaMode.Opaque)
      else AlphaMode.Opaque := by
  unfold build_standard_material
  rw [foldl_texture_refs_alpha_mode, alpha_update_alpha_mode,
    emission_update_alpha_mode, roughness_update_alpha_mode,
    metallic_update_alpha_mode, base_color_update_alpha_mode]
  rfl

theorem metallic_update_base_color (m : UfbxMaterial) (mat : StandardMaterial) :
    (metallic_update m mat).base_color = mat.base_color := by
  unfold metallic_update
  split <;> rfl

theorem roughness_update_base_color (m : UfbxMaterial) (mat : StandardMaterial) :
    (roughness_update m mat).base_color = mat.base_color := by
  unfold roughness_update
  split <;> rfl

theorem emission_update_base_color (m : UfbxMaterial) (mat : StandardMaterial) :
    (emission_update m mat).base_color = mat.base_color := by
  unfold emission_update
  split <;> rfl

theorem alpha_update_base_color (m : UfbxMaterial) (mat : StandardMaterial) :
    (alpha_update m mat).base_color = mat.base_color := by
  unfold alpha_update
  split <;> rfl

/-- The base color of the converted material, as a function of the decoded
diffuse / PBR base color properties alone. -/
theorem build_standard_material_base_color (m : UfbxMaterial)
    (th : List (Nat × ImageHandle)) :
    (build_standard_material m th).base_color =
      match m.fbx.diffuse_color with
      | some diffuse =>
        Color.srgb diffuse.value_vec4.x diffuse.value_vec4.y diffuse.value_vec4.z
      | none =>
        match m.pbr.base_color with
        | some pbr_base =>
          Color.srgb pbr_base.value_vec4.x pbr_base.value_vec4.y
            pbr_base.value_vec4.z
        | none => StandardMaterial.default.base_color := by
  unfold build_standard_material
  rw [foldl_texture_refs_base_color, alpha_update_base_color,
    emission_update_base_color, roughness_update_base_color,
    metallic_update_base_color]
  rcases hd : m.fbx.diffuse_color with _ | d <;>
    rcases hb : m.pbr.base_color with _ | b <;>
    simp [base_color_update, hd, hb]

/-! ### Concrete fixtures used by witnesses and counterexamples -/

/-- A decoded material with the given opacity, no other properties, and no
texture references. -/
def opacityMat (q : ℚ) : UfbxMaterial where
  element := ⟨1, "mat"⟩
  fbx := ⟨none, none⟩
  pbr := ⟨none, none, none, ⟨⟨q, 0, 0, 0⟩⟩⟩
  textures := []

/-- A decoded material with the given fallible color-property outcomes
(classic diffuse, PBR base color), opacity 1, and no texture references. -/
def colorMat (diffuse pbrBase : Option Vec4) : UfbxMaterial where
  element := ⟨1, "mat"⟩
  fbx := ⟨diffuse.map (fun v => ⟨v⟩), none⟩
  pbr := ⟨pbrBase.map (fun v => ⟨v⟩), none, none, ⟨⟨1, 0, 0, 0⟩⟩⟩
  textures := []

/-! ### C3: alpha-mode thresholds -/

/-- C3: for every decoded material, an opacity of 1 or more leaves the alpha
mode at the engine default (opaque); an opacity in [0.98, 1) sets it to
opaque; an opacity strictly below 0.98 sets it to blend. -/
theorem claim_C3_alpha_mode_thresholds (m : UfbxMaterial)
    (th : List (Nat × ImageHandle)) :
    (1 ≤ m.pbr.opacity.value_vec4.x →
      (build_standard_material m th).alpha_mode =
        StandardMaterial.default.alpha_mode) ∧
    (98/100 ≤ m.pbr.opacity.value_vec4.x → m.pbr.opacity.value_vec4.x < 1 →
      (build_standard_material m th).alpha_mode = AlphaMode.Opaque) ∧
    (m.pbr.opacity.value_vec4.x < 98/100 →
      (build_standard_material m th).alpha_mode = AlphaMode.Blend) := by
  refine ⟨fun h1 => ?_, fun h2 h3 => ?_, fun h4 => ?_⟩ <;>
    rw [build_standard_material_alpha_mode]
  · rw [if_neg (not_lt.mpr h1)]
    rfl
  · rw [if_pos h3, if_neg (not_lt.mpr h2)]
  · have hx : m.pbr.opacity.value_vec4.x < 1 := lt_trans h4 (by norm_num)
    rw [if_pos hx, if_pos h4]

theorem claim_C3_witness :
    (build_standard_material (opacityMat 1) []).alpha_mode =
      StandardMaterial.default.alpha_mode ∧
    (build_standard_material (opacityMat (98/100)) []).alpha_mode =
      AlphaMode.Opaque ∧
    (build_standard_material (opacityMat (1/2)) []).alpha_mode =
      AlphaMode.Blend :=
  ⟨(claim_C3_alpha_mode_thresholds (opacityMat 1) []).1
      (by norm_num [opacityMat]),
    (claim_C3_alpha_mode_thresholds (opacityMat (98/100)) []).2.1
      (by norm_num [opacityMat]) (by norm_num [opacityMat]),
    (claim_C3_alpha_mode_thresholds (opacityMat (1/2)) []).2.2
      (by norm_num [opacityMat])⟩

/-! ### C7: base-color priority -/

/-- C7: the base color is assigned with first-match-wins priority — the
classic diffuse color is preferred, the PBR base color is used only when
diffuse is absent, and when both are absent the base color stays at the
engine default; the conversion itself never fails. -/
theorem claim_C7_base_color_priority (m : UfbxMaterial)
    (th : List (Nat × ImageHandle)) :
    (∀ d, m.fbx.diffuse_color = some d →
      (build_standard_material m th).base_color =
        Color.srgb d.value_vec4.x d.value_vec4.y d.value_vec4.z) ∧
    (m.fbx.diffuse_color = none → ∀ b, m.pbr.base_color = some b →
      (build_standard_material m th).base_color =
        Color.srgb b.value_vec4.x b.value_vec4.y b.value_vec4.z) ∧
    (m.fbx.diffuse_color = none → m.pbr.base_color = none →
      (build_standard_material m th).base_color =
        StandardMaterial.default.base_color) ∧
    create_standard_material m th =
      Except.ok (build_standard_material m th) := by
  refine ⟨fun d hd => ?_, fun hd b hb => ?_, fun hd hb => ?_, rfl⟩ <;>
    rw [build_standard_material_base_color]
  · rw [hd]
  · rw [hd, hb]
  · rw [hd, hb]

theorem claim_C7_witness :
    (build_standard_material (colorMat (some ⟨1, 0, 0, 1⟩) (some ⟨0, 1, 0, 1⟩))
        []).base_color = Color.srgb 1 0 0 ∧
    (build_standard_material (colorMat none (some ⟨0, 1, 0, 1⟩))
        []).base_color = Color.srgb 0 1 0 ∧
    (build_standard_material (colorMat none none) []).base_color =
      StandardMaterial.default.base_color ∧
    create_standard_material (colorMat none none) [] =
      Except.ok (build_standard_material (colorMat none none) []) :=
  ⟨(claim_C7_base_color_priority
      (colorMat (some ⟨1, 0, 0, 1⟩) (some ⟨0, 1, 0, 1⟩)) []).1 ⟨⟨1, 0, 0, 1⟩⟩ rfl,
    (claim_C7_base_color_priority (colorMat none (some ⟨0, 1, 0, 1⟩)) []).2.1
      rfl ⟨⟨0, 1, 0, 1⟩⟩ rfl,
    (claim_C7_base_color_priority (colorMat none none) []).2.2.1 rfl rfl,
    (claim_C7_base_color_priority (colorMat none none) []).2.2.2⟩

/-! ### C5: Metallic/Roughness slot priority -/

theorem apply_texture_ref_metallic (th : List (Nat × ImageHandle))
    (mat : StandardMaterial) (r : TextureRef) (img : ImageHandle)
    (himg : mapGet th r.texture.element.element_id = some img)
    (hprop : r.material_prop = "Metallic") :
    (apply_texture_ref th mat r).metallic_roughness_texture = some img := by
  simp [apply_texture_ref, himg, hprop]

theorem apply_texture_ref_mrt_stable (th : List (Nat × ImageHandle))
    (mat : StandardMaterial) (r : TextureRef) (v : ImageHandle)
    (hv : mat.metallic_roughness_texture = some v)
    (hprop : r.material_prop ≠ "Metallic") :
    (apply_texture_ref th mat r).metallic_roughness_texture = some v := by
  unfold apply_texture_ref
  cases hg : mapGet th r.texture.element.element_id with
  | none => exact hv
  | some img =>
    simp only [hv, Option.isNone_some, Bool.false_eq_true, if_false]
    split <;> simp_all

theorem foldl_texture_refs_mrt_stable (th : List (Nat × ImageHandle))
    (refs : List TextureRef) (mat : StandardMaterial) (v : ImageHandle)
    (hv : mat.metallic_roughness_texture = some v)
    (h : ∀ r ∈ refs, r.material_prop ≠ "Metallic") :
    (refs.foldl (apply_texture_ref th) mat).metallic_roughness_texture =
      some v := by
  induction refs generalizing mat with
  | nil => exact hv
  | cons r rest ih =>
    rw [List.foldl_cons]
    exact ih _ (apply_texture_ref_mrt_stable th mat r v hv
        (h r (List.mem_cons_self r rest)))
      (fun r2 h2 => h r2 (List.mem_cons_of_mem r h2))

/-- C5: when the texture-reference list contains a resolved "Metallic" entry
that no later "Metallic" entry follows, the metallic-roughness slot ends up
holding that entry's image regardless of any "Roughness" references; a
"Roughness" reference fills the slot only while it is empty and never
overwrites a filled slot. -/
theorem claim_C5_metallic_priority (m : UfbxMaterial)
    (th : List (Nat × ImageHandle)) (l1 l2 : List TextureRef)
    (r : TextureRef) (img : ImageHandle)
    (hsplit : m.textures = l1 ++ r :: l2)
    (hprop : r.material_prop = "Metallic")
    (himg : mapGet th r.texture.element.element_id = some img)
    (hlast : ∀ r2 ∈ l2, r2.material_prop ≠ "Metallic") :
    (build_standard_material m th).metallic_roughness_texture = some img ∧
    (∀ (mat : StandardMaterial) (r2 : TextureRef) (v : ImageHandle),
      mat.metallic_roughness_texture = some v →
      r2.material_prop = "Roughness" →
      (apply_texture_ref th mat r2).metallic_roughness_texture = some v) ∧
    (∀ (mat : StandardMaterial) (r2 : TextureRef) (img2 : ImageHandle),
      mat.metallic_roughness_texture = none →
      r2.material_prop = "Roughness" →
      mapGet th r2.texture.element.element_id = some img2 →
      (apply_texture_ref th mat r2).metallic_roughness_texture = some img2) := by
  refine ⟨?_, ?_, ?_⟩
  · unfold build_standard_material
    rw [hsplit, List.foldl_append, List.foldl_cons]
    exact foldl_texture_refs_mrt_stable th l2 _ img
      (apply_texture_ref_metallic th _ r img himg hprop) hlast
  · intro mat r2 v hv hp
    exact apply_texture_ref_mrt_stable th mat r2 v hv (by simp [hp])
  · intro mat r2 img2 hnone hp himg2
    simp [apply_texture_ref, himg2, hp, hnone]

/-- A decoded texture with the given identity and filename, no absolute path,
and identity UV placement. -/
def texFix (id : Nat) (name : String) : UfbxTexture :=
  ⟨⟨id, name⟩, name ++ ".png", "", UvTransform.identity⟩

/-- A material with a "Roughness" reference listed before a "Metallic" one. -/
def mrMat : UfbxMaterial where
  element := ⟨1, "mat"⟩
  fbx := ⟨none, none⟩
  pbr := ⟨none, none, none, ⟨⟨1, 0, 0, 0⟩⟩⟩
  textures := [⟨"Roughness", texFix 11 "rough"⟩, ⟨"Metallic", texFix 10 "metal"⟩]

/-- A texture-handle table resolving the fixture textures. -/
def thFix : List (Nat × ImageHandle) := [(10, "metal.png"), (11, "rough.png")]

theorem claim_C5_witness :
    (build_standard_material mrMat thFix).metallic_roughness_texture =
      some "metal.png" :=
  (claim_C5_metallic_priority mrMat thFix [⟨"Roughness", texFix 11 "rough"⟩] []
    ⟨"Metallic", texFix 10 "metal"⟩ "metal.png" rfl rfl rfl (by simp)).1

/-! ### C10: UV transform written only by resolved base-color references -/

/-- A texture reference that targets the base-color slot (declared property
"DiffuseColor" or "BaseColor") and whose texture has a resolved image
handle — the only kind of reference that writes the UV transform. -/
def is_resolved_base (th : List (Nat × ImageHandle)) (r : TextureRef) : Bool :=
  (r.material_prop == "DiffuseColor" || r.material_prop == "BaseColor") &&
    (mapGet th r.texture.element.element_id).isSome

theorem base_color_update_uv (m : UfbxMaterial) (mat : StandardMaterial) :
    (base_color_update m mat).uv_transform = mat.uv_transform := by
  unfold base_color_update
  split
  · rfl
  · split <;> rfl

theorem metallic_update_uv (m : UfbxMaterial) (mat : StandardMaterial) :
    (metallic_update m mat).uv_transform = mat.uv_transform := by
  unfold metallic_update
  split <;> rfl

theorem roughness_update_uv (m : UfbxMaterial) (mat : StandardMaterial) :
    (roughness_update m mat).uv_transform = mat.uv_transform := by
  unfold roughness_update
  split <;> rfl

theorem emission_update_uv (m : UfbxMaterial) (mat : StandardMaterial) :
    (emission_update m mat).uv_transform = mat.uv_transform := by
  unfold emission_update
  split <;> rfl

theorem alpha_update_uv (m : UfbxMaterial) (mat : StandardMaterial) :
    (alpha_update m mat).uv_transform = mat.uv_transform := by
  unfold alpha_update
  split <;> rfl

theorem apply_texture_ref_uv_stable (th : List (Nat × ImageHandle))
    (mat : StandardMaterial) (r : TextureRef)
    (h : is_resolved_base th r = false) :
    (apply_texture_ref th mat r).uv_transform = mat.uv_transform := by
  cases hg : mapGet th r.texture.element.element_id with
  | none => simp [apply_texture_ref, hg]
  | some img =>
    rw [is_resolved_base, hg] at h
    simp only [Option.isSome_some, Bool.and_true, Bool.or_eq_false_iff,
      beq_eq_false_iff_ne, ne_eq] at h
    simp only [apply_texture_ref, hg]
    split <;> first | rfl | (split <;> rfl) | simp_all

theorem apply_texture_ref_uv_set (th : List (Nat × ImageHandle))
    (mat : StandardMaterial) (r : TextureRef) (img : ImageHandle)
    (hprop : r.material_prop = "DiffuseColor" ∨ r.material_prop = "BaseColor")
    (himg : mapGet th r.texture.element.element_id = some img) :
    (apply_texture_ref th mat r).uv_transform =
      convert_texture_uv_transform r.texture := by
  rcases hprop with h | h <;> simp [apply_texture_ref, himg, h]

theorem foldl_texture_refs_uv_stable (th : List (Nat × ImageHandle))
    (refs : List TextureRef) (mat : StandardMaterial)
    (h : ∀ r ∈ refs, is_resolved_base th r = false) :
    (refs.foldl (apply_texture_ref th) mat).uv_transform = mat.uv_transform := by
  induction refs generalizing mat with
  | nil => rfl
  | cons r rest ih =>
    rw [List.foldl_cons, ih _ (fun r2 h2 => h r2 (List.mem_cons_of_mem r h2)),
      apply_texture_ref_uv_stable th mat r (h r (List.mem_cons_self r rest))]

/-- C10: the UV transform is written only by a texture reference with
property name "DiffuseColor" or "BaseColor" that resolves to an image handle
(taking the transform from that texture); if no such reference exists the UV
transform stays at the engine default. -/
theorem claim_C10_uv_transform (m : UfbxMaterial)
    (th : List (Nat × ImageHandle)) :
    ((∀ r ∈ m.textures, is_resolved_base th r = false) →
      (build_standard_material m th).uv_transform =
        StandardMaterial.default.uv_transform) ∧
    (∀ (l1 l2 : List TextureRef) (r : TextureRef) (img : ImageHandle),
      m.textures = l1 ++ r :: l2 →
      (r.material_prop = "DiffuseColor" ∨ r.material_prop = "BaseColor") →
      mapGet th r.texture.element.element_id = some img →
      (∀ r2 ∈ l2, is_resolved_base th r2 = false) →
      (build_standard_material m th).uv_transform =
        convert_texture_uv_transform r.texture) := by
  constructor
  · intro h
    unfold build_standard_material
    rw [foldl_texture_refs_uv_stable th _ _ h, alpha_update_uv,
      emission_update_uv, roughness_update_uv, metallic_update_uv,
      base_color_update_uv]
  · intro l1 l2 r img hsplit hprop himg hlast
    unfold build_standard_material
    rw [hsplit, List.foldl_append, List.foldl_cons,
      foldl_texture_refs_uv_stable th l2 _ hlast,
      apply_texture_ref_uv_set th _ r img hprop himg]

/-- A material whose only texture reference is a resolved "DiffuseColor" one
with a non-default UV placement. -/
def uvMat : UfbxMaterial where
  element := ⟨1, "mat"⟩
  fbx := ⟨none, none⟩
  pbr := ⟨none, none, none, ⟨⟨1, 0, 0, 0⟩⟩⟩
  textures := [⟨"DiffuseColor", ⟨⟨20, "diff"⟩, "diff.png", "", ⟨1, 2, 3, 4, 5⟩⟩⟩]

/-- A material whose only texture reference is a resolved "NormalMap" one. -/
def normalMat : UfbxMaterial where
  element := ⟨1, "mat"⟩
  fbx := ⟨none, none⟩
  pbr := ⟨none, none, none, ⟨⟨1, 0, 0, 0⟩⟩⟩
  textures := [⟨"NormalMap", ⟨⟨21, "nrm"⟩, "nrm.png", "", ⟨1, 2, 3, 4, 5⟩⟩⟩]

/-- The texture-handle table resolving the C10 fixture textures. -/
def thUv : List (Nat × ImageHandle) := [(20, "diff.png"), (21, "nrm.png")]

theorem claim_C10_witness :
    (build_standard_material normalMat thUv).uv_transform =
      StandardMaterial.default.uv_transform ∧
    (build_standard_material uvMat thUv).uv_transform =
      convert_texture_uv_transform ⟨⟨20, "diff"⟩, "diff.png", "", ⟨1, 2, 3, 4, 5⟩⟩ :=
  ⟨(claim_C10_uv_transform normalMat thUv).1 (by decide),
    (claim_C10_uv_transform uvMat thUv).2 [] []
      ⟨"DiffuseColor", ⟨⟨20, "diff"⟩, "diff.png", "", ⟨1, 2, 3, 4, 5⟩⟩⟩
      "diff.png" rfl (Or.inl rfl) rfl (by simp)⟩

/-! ### C6: texture path resolution -/

theorem mem_textures_foldl (ctx : LoadContext) (l : List UfbxTexture)
    (acc : List (Nat × ImageHandle)) (k : Nat) (h : ImageHandle)
    (hm : (k, h) ∈ l.foldl (textures_step ctx) acc) :
    (k, h) ∈ acc ∨ ∃ t ∈ l, t.element.element_id = k ∧ t.filename ≠ "" ∧
      h = texture_path ctx t := by
  induction l generalizing acc with
  | nil => exact Or.inl hm
  | cons t rest ih =>
    rw [List.foldl_cons] at hm
    rcases ih _ hm with hacc | ⟨t2, ht2, hrest⟩
    · unfold textures_step at hacc
      split at hacc
      · rcases List.mem_cons.mp hacc with heq | hfil
        · rcases Prod.mk.injEq .. ▸ heq with ⟨hk, hh⟩
          exact Or.inr ⟨t, List.mem_cons_self t rest, hk.symm, by assumption, hh⟩
        · exact Or.inl (List.mem_filter.mp hfil).1
      · exact Or.inl hacc
    · exact Or.inr ⟨t2, List.mem_cons_of_mem t ht2, hrest⟩

/-- C6: a decoded texture with a non-empty filename resolves to its non-empty
absolute path unchanged, and otherwise to the FBX file's parent directory
joined with its relative filename; every entry of the texture-handle table
originates from a texture with a non-empty filename (so a texture with an
empty filename produces no entry). -/
theorem claim_C6_texture_path_resolution (scene : Scene) (ctx : LoadContext)
    (out : List (Nat × ImageHandle))
    (hout : process_textures scene ctx = Except.ok out) :
    (∀ t ∈ scene.textures, t.filename ≠ "" → t.absolute_filename ≠ "" →
      texture_path ctx t = t.absolute_filename) ∧
    (∀ t ∈ scene.textures, t.filename ≠ "" → t.absolute_filename = "" →
      texture_path ctx t = ctx.pathJoin (ctx.parent_dir.getD "") t.filename) ∧
    (∀ k h, (k, h) ∈ out → ∃ t ∈ scene.textures,
      t.element.element_id = k ∧ t.filename ≠ "" ∧ h = texture_path ctx t) := by
  refine ⟨fun t _ _ habs => ?_, fun t _ _ habs => ?_, fun k h hm => ?_⟩
  · rw [texture_path, if_pos habs]
  · rw [texture_path, if_neg (by simpa using habs)]
    cases hp : ctx.parent_dir <;> simp [hp]
  · have hfold : out = scene.textures.foldl (textures_step ctx) [] := by
      have := hout
      rw [process_textures] at this
      exact (Except.ok.injEq .. ▸ this).symm
    rcases mem_textures_foldl ctx scene.textures [] k h (hfold ▸ hm) with
      habs | hgood
    · simp at habs
    · exact hgood

/-- The loader-context fixture: the FBX file sits in directory "models" and
paths join with a slash. -/
def ctxFix : LoadContext := ⟨some "models", fun a b => a ++ "/" ++ b⟩

/-- A texture carrying an absolute path. -/
def texAbs : UfbxTexture := ⟨⟨30, "abs"⟩, "t.png", "/abs/t.png", UvTransform.identity⟩

/-- A texture carrying only a relative filename. -/
def texRel : UfbxTexture := ⟨⟨31, "rel"⟩, "rel.png", "", UvTransform.identity⟩

/-- A texture with an empty filename (skipped). -/
def texSkip : UfbxTexture := ⟨⟨32, "skip"⟩, "", "", UvTransform.identity⟩

/-- A scene containing the three texture fixtures and no materials. -/
def sceneTex : Scene := ⟨[], [texAbs, texRel, texSkip]⟩

theorem claim_C6_witness :
    texture_path ctxFix texAbs = texAbs.absolute_filename ∧
    texture_path ctxFix texRel =
      ctxFix.pathJoin (ctxFix.parent_dir.getD "") texRel.filename :=
  ⟨(claim_C6_texture_path_resolution sceneTex ctxFix _ rfl).1 texAbs
      (by simp [sceneTex]) (by simp [texAbs]) (by simp [texAbs]),
    (claim_C6_texture_path_resolution sceneTex ctxFix _ rfl).2.1 texRel
      (by simp [sceneTex]) (by simp [texRel]) rfl⟩

/-! ### C4 and C9: the material loop, skipped identities and label indices -/

theorem process_materials_loop_eq (th : List (Nat × ImageHandle))
    (l : List (Nat × UfbxMaterial)) (acc : List MaterialHandle)
    (nacc : List (String × MaterialHandle)) :
    ∃ named, process_materials_loop th l acc nacc =
      Except.ok (acc ++ (l.filter (fun p => p.2.element.element_id != 0)).map
        (fun p => (⟨p.1, build_standard_material p.2 th⟩ : MaterialHandle)),
        named) := by
  induction l generalizing acc nacc with
  | nil => exact ⟨nacc, by simp [process_materials_loop]⟩
  | cons p rest ih =>
    obtain ⟨i, m⟩ := p
    by_cases h : m.element.element_id = 0
    · obtain ⟨named, hn⟩ := ih acc nacc
      exact ⟨named, by simp [process_materials_loop, h, hn]⟩
    · obtain ⟨named, hn⟩ := ih (acc ++ [⟨i, build_standard_material m th⟩])
        (if m.element.name ≠ "" then
          mapInsert nacc m.element.name ⟨i, build_standard_material m th⟩
        else nacc)
      refine ⟨named, ?_⟩
      rw [List.filter_cons_of_pos (by simpa using h), List.map_cons]
      simp only [process_materials_loop, h, if_false, create_standard_material,
        hn]
      simp

theorem process_materials_eq {σ : Type} (scene : Scene) (s : σ)
    (ctx : LoadContext) :
    ∃ named, process_materials scene s ctx =
      Except.ok (((scene.materials.enum).filter
          (fun p => p.2.element.element_id != 0)).map
        (fun p => (⟨p.1, build_standard_material p.2
            (scene.textures.foldl (textures_step ctx) [])⟩ : MaterialHandle)),
        named) := by
  obtain ⟨named, hn⟩ := process_materials_loop_eq
    (scene.textures.foldl (textures_step ctx) []) scene.materials.enum [] []
  exact ⟨named, by simpa [process_materials, process_textures] using hn⟩

theorem length_filter_enumFrom {α : Type} (pred : α → Bool) (l : List α)
    (n : Nat) :
    ((List.enumFrom n l).filter (fun p => pred p.2)).length =
      (l.filter pred).length := by
  induction l generalizing n with
  | nil => rfl
  | cons a t ih =>
    rw [List.enumFrom_cons]
    by_cases h : pred a
    · rw [List.filter_cons_of_pos (by simpa using h), List.filter_cons_of_pos h]
      simp [ih]
    · rw [List.filter_cons_of_neg (by simpa using h), List.filter_cons_of_neg h]
      exact ih (n + 1)

/-- C4: every handle in the returned material collection points at a decoded
material with non-zero identity (identity 0 never appears), and the
collection has exactly one entry per decoded material with non-zero
identity. -/
theorem claim_C4_zero_identity_skipped {σ : Type} (scene : Scene) (s : σ)
    (ctx : LoadContext)
    (out : List MaterialHandle × List (String × MaterialHandle))
    (hout : process_materials scene s ctx = Except.ok out) :
    (∀ h ∈ out.1, ∃ m, scene.materials[h.label_index]? = some m ∧
      m.element.element_id ≠ 0) ∧
    out.1.length =
      (scene.materials.filter (fun m => m.element.element_id != 0)).length := by
  obtain ⟨named, hn⟩ := process_materials_eq scene s ctx
  rw [hout] at hn
  obtain ⟨h1, _⟩ := Prod.mk.injEq .. ▸ (Except.ok.injEq .. ▸ hn)
  constructor
  · intro h hm
    rw [h1] at hm
    obtain ⟨p, hp, hph⟩ := List.mem_map.mp hm
    obtain ⟨hpe, hpid⟩ := List.mem_filter.mp hp
    obtain ⟨i, a⟩ := p
    have hget : scene.materials[i]? = some a :=
      List.mk_mem_enum_iff_getElem?.mp hpe
    refine ⟨a, ?_, by simpa using hpid⟩
    have : h.label_index = i := by rw [← hph]
    rw [this]
    exact hget
  · rw [h1, List.length_map, List.enum_eq_enumFrom]
    exact length_filter_enumFrom (fun m => m.element.element_id != 0)
      scene.materials 0

/-- A decoded material with the reserved identity 0. -/
def zeroMat : UfbxMaterial where
  element := ⟨0, "zero"⟩
  fbx := ⟨none, none⟩
  pbr := ⟨none, none, none, ⟨⟨1, 0, 0, 0⟩⟩⟩
  textures := []

/-- A decoded material with identity 5. -/
def okMat : UfbxMaterial where
  element := ⟨5, "ok"⟩
  fbx := ⟨none, none⟩
  pbr := ⟨none, none, none, ⟨⟨1, 0, 0, 0⟩⟩⟩
  textures := []

/-- A scene whose first decoded material is skipped (identity 0) and whose
second is kept. -/
def sceneSkip : Scene := ⟨[zeroMat, okMat], []⟩

theorem claim_C4_witness :
    ([(⟨1, build_standard_material okMat []⟩ : MaterialHandle)]).length =
      (sceneSkip.materials.filter
        (fun m => m.element.element_id != 0)).length :=
  (claim_C4_zero_identity_skipped sceneSkip (0 : Nat) ctxFix _ rfl).2

theorem get_filter_enumFrom {α : Type} (pred : α → Bool) (l : List α)
    (n j i : Nat) (a : α)
    (hg : ((List.enumFrom n l).filter (fun p => pred p.2)).get? j =
      some (i, a)) :
    n ≤ i ∧ l.get? (i - n) = some a ∧ pred a = true ∧
      ((l.take (i - n)).filter pred).length = j := by
  induction l generalizing n j with
  | nil => simp [List.enumFrom] at hg
  | cons b t ih =>
    rw [List.enumFrom_cons] at hg
    by_cases hb : pred b
    · rw [List.filter_cons_of_pos (by simpa using hb)] at hg
      cases j with
      | zero =>
        obtain ⟨hi, ha⟩ := Prod.mk.injEq .. ▸ Option.some.injEq .. ▸ hg
        subst hi
        subst ha
        exact ⟨le_refl n, by simp [Nat.sub_self], hb, by simp [Nat.sub_self]⟩
      | succ j2 =>
        rw [List.get?_cons_succ] at hg
        obtain ⟨h1, h2, h3, h4⟩ := ih (n + 1) j2 hg
        have hin : i - n = (i - (n + 1)) + 1 := by omega
        refine ⟨by omega, ?_, h3, ?_⟩
        · rw [hin, List.get?_cons_succ]
          exact h2
        · rw [hin, List.take_succ_cons, List.filter_cons_of_pos hb]
          simp [h4]
    · rw [List.filter_cons_of_neg (by simpa using hb)] at hg
      obtain ⟨h1, h2, h3, h4⟩ := ih (n + 1) j hg
      have hin : i - n = (i - (n + 1)) + 1 := by omega
      refine ⟨by omega, ?_, h3, ?_⟩
      · rw [hin, List.get?_cons_succ]
        exact h2
      · rw [hin, List.take_succ_cons, List.filter_cons_of_neg hb]
        exact h4

theorem length_filter_add_length_filter_not {α : Type} (pred : α → Bool)
    (l : List α) :
    (l.filter pred).length + (l.filter (fun x => !(pred x))).length =
      l.length := by
  induction l with
  | nil => rfl
  | cons a t ih =>
    by_cases h : pred a <;> simp [h, ih] <;> omega

/-- C9: the handle at position `j` of the returned material collection
carries label index `j` plus the number of skipped (identity-0) decoded
materials preceding its decoded position; hence whenever a skipped material
precedes it, the label index differs from the collection position. -/
theorem claim_C9_label_counts_skipped {σ : Type} (scene : Scene) (s : σ)
    (ctx : LoadContext)
    (out : List MaterialHandle × List (String × MaterialHandle))
    (j : Nat) (h : MaterialHandle)
    (hout : process_materials scene s ctx = Except.ok out)
    (hj : out.1.get? j = some h) :
    h.label_index = j + ((scene.materials.take h.label_index).filter
      (fun m => m.element.element_id == 0)).length ∧
    (((scene.materials.take h.label_index).filter
      (fun m => m.element.element_id == 0)).length ≠ 0 →
      h.label_index ≠ j) := by
  obtain ⟨named, hn⟩ := process_materials_eq scene s ctx
  rw [hout] at hn
  obtain ⟨h1, _⟩ := Prod.mk.injEq .. ▸ (Except.ok.injEq .. ▸ hn)
  rw [h1, List.get?_map] at hj
  obtain ⟨p, hp, hph⟩ := Option.map_eq_some'.mp hj
  obtain ⟨i, a⟩ := p
  rw [List.enum_eq_enumFrom] at hp
  obtain ⟨_, h2, h3, h4⟩ := get_filter_enumFrom
    (fun m => m.element.element_id != 0) scene.materials 0 j i a hp
  rw [Nat.sub_zero] at h2 h4
  have hlabel : h.label_index = i := by rw [← hph]
  have hilen : i < scene.materials.length := by
    by_contra hge
    rw [List.get?_eq_none.mpr (by omega)] at h2
    exact Option.noConfusion h2
  have htake : (scene.materials.take i).length = i := by
    rw [List.length_take]
    omega
  have hsplit := length_filter_add_length_filter_not
    (fun m => m.element.element_id != 0) (scene.materials.take i)
  have hnotnot : ((scene.materials.take i).filter
      (fun m => !(m.element.element_id != 0))).length =
      ((scene.materials.take i).filter
        (fun m => m.element.element_id == 0)).length := by
    have hpredeq : (fun (m : UfbxMaterial) => !(m.element.element_id != 0)) =
        (fun m => m.element.element_id == 0) := by
      funext m
      simp [bne]
    rw [hpredeq]
  rw [htake, h4, hnotnot] at hsplit
  rw [hlabel]
  constructor
  · omega
  · intro hne
    omega

theorem claim_C9_witness :
    (⟨1, build_standard_material okMat []⟩ : MaterialHandle).label_index =
      0 + ((sceneSkip.materials.take 1).filter
        (fun m => m.element.element_id == 0)).length ∧
    (((sceneSkip.materials.take 1).filter
      (fun m => m.element.element_id == 0)).length ≠ 0 →
      (1 : Nat) ≠ 0) :=
  claim_C9_label_counts_skipped sceneSkip (0 : Nat) ctxFix _ 0
    ⟨1, build_standard_material okMat []⟩ rfl rfl

/-! ### Loader front-end lemmas -/

theorem load_tail_trace {M X I N NM K S : Type} (mp : Mappers M X I N NM K S)
    (scene : Scene) (meshes : List M) (nm : List (String × M)) (xt : X)
    (mi : I) (mats : List MaterialHandle)
    (nmats : List (String × MaterialHandle)) (settings : FbxLoaderSettings)
    (ctx : LoadContext) (tr : List Step) :
    ∃ l, (load_tail mp scene meshes nm xt mi mats nmats settings ctx tr).2 =
      tr ++ l := by
  unfold load_tail
  split
  · exact ⟨[Step.nodes], rfl⟩
  · split
    · exact ⟨[Step.nodes, Step.skins], rfl⟩
    · split
      · exact ⟨[Step.nodes, Step.skins, Step.scene_build], rfl⟩
      · exact ⟨[Step.nodes, Step.skins, Step.scene_build], rfl⟩

theorem load_tail_ok {M X I N NM K S : Type} (mp : Mappers M X I N NM K S)
    (scene : Scene) (meshes : List M) (nm : List (String × M)) (xt : X)
    (mi : I) (mats : List MaterialHandle)
    (nmats : List (String × MaterialHandle)) (settings : FbxLoaderSettings)
    (ctx : LoadContext) (tr : List Step) (fbx : Fbx M N K S) :
    (load_tail mp scene meshes nm xt mi mats nmats settings ctx tr).1 =
      Except.ok fbx →
    (load_tail mp scene meshes nm xt mi mats nmats settings ctx tr).2 =
      tr ++ [Step.nodes, Step.skins, Step.scene_build] ∧
    fbx.materials = mats ∧ fbx.named_materials = nmats := by
  unfold load_tail
  split
  · intro hok
    exact absurd hok (by simp)
  · split
    · intro hok
      exact absurd hok (by simp)
    · split
      · intro hok
        exact absurd hok (by simp)
      · intro hok
        have hfbx := Except.ok.inj hok
        exact ⟨rfl, by rw [← hfbx], by rw [← hfbx]⟩

/-! ### C1: mapper invocation order -/

/-- C1 (amended): every successful load runs the decode step, then the
mappers in the fixed order meshes → materials (present only when material
loading is enabled in the settings) → nodes → skins → scene assembly; when
the material usage class is empty the material stage is skipped entirely and
the returned material collection and name-keyed material map are both
empty. -/
theorem claim_C1_mapper_order {M X I N NM K S : Type}
    (mp : Mappers M X I N NM K S) (decode : List Nat → Except String Scene)
    (bytes : List Nat) (settings : FbxLoaderSettings) (ctx : LoadContext)
    (fbx : Fbx M N K S)
    (hok : (FbxLoader.load mp decode bytes settings ctx).1 = Except.ok fbx) :
    (settings.load_materials.isEmptyUsage = false →
      (FbxLoader.load mp decode bytes settings ctx).2 =
        [Step.decode, Step.meshes, Step.materials, Step.nodes, Step.skins,
          Step.scene_build]) ∧
    (settings.load_materials.isEmptyUsage = true →
      (FbxLoader.load mp decode bytes settings ctx).2 =
        [Step.decode, Step.meshes, Step.nodes, Step.skins,
          Step.scene_build] ∧
      fbx.materials = [] ∧ fbx.named_materials = []) := by
  by_cases h0 : bytes.isEmpty
  · rw [FbxLoader.load, if_pos h0] at hok
    exact absurd hok (by simp)
  by_cases h1 : bytes.length < 32
  · rw [FbxLoader.load, if_neg h0, if_pos h1] at hok
    exact absurd hok (by simp)
  cases hd : decode bytes with
  | error e =>
    simp [FbxLoader.load, h0, h1, hd] at hok
  | ok scene =>
    cases hm : mp.process_meshes scene settings.mapperView ctx with
    | error e =>
      simp [FbxLoader.load, h0, h1, hd, hm] at hok
    | ok quad =>
      obtain ⟨meshes, nmeshes, xt, mi⟩ := quad
      by_cases hmat : settings.load_materials.isEmptyUsage
      · have hload : FbxLoader.load mp decode bytes settings ctx =
            load_tail mp scene meshes nmeshes xt mi [] [] settings ctx
              [Step.decode, Step.meshes] := by
          simp [FbxLoader.load, h0, h1, hd, hm, hmat]
        rw [hload] at hok ⊢
        obtain ⟨htr, hmats, hnmats⟩ := load_tail_ok mp scene meshes nmeshes
          xt mi [] [] settings ctx [Step.decode, Step.meshes] fbx hok
        exact ⟨fun hff => absurd hmat (by rw [hff]; exact Bool.false_ne_true),
          fun _ => ⟨htr, hmats, hnmats⟩⟩
      · obtain ⟨named, hpm⟩ := process_materials_eq scene settings ctx
        have hload : FbxLoader.load mp decode bytes settings ctx =
            load_tail mp scene meshes nmeshes xt mi
              (((scene.materials.enum).filter
                  (fun p => p.2.element.element_id != 0)).map
                (fun p => (⟨p.1, build_standard_material p.2
                    (scene.textures.foldl (textures_step ctx) [])⟩ :
                  MaterialHandle)))
              named settings ctx
              [Step.decode, Step.meshes, Step.materials] := by
          simp [FbxLoader.load, h0, h1, hd, hm, hmat, hpm]
        rw [hload] at hok ⊢
        obtain ⟨htr, hmats, hnmats⟩ := load_tail_ok mp scene meshes nmeshes
          xt mi _ named settings ctx
          [Step.decode, Step.meshes, Step.materials] fbx hok
        exact ⟨fun _ => htr, fun htt => absurd htt hmat⟩

/-- Concrete mapper fixtures for the absent modules (element types all `Nat`). -/
def mpFix : Mappers Nat Nat Nat Nat Nat Nat Nat where
  process_meshes := fun _ _ _ => Except.ok ([1], [], 0, 0)
  process_nodes := fun _ _ _ => Except.ok ([2], [], 0)
  process_skins := fun _ _ _ => Except.ok ([], [])
  build_scene := fun _ _ _ _ _ _ _ _ => Except.ok 7

/-- A decoder that accepts any bytes and yields the `sceneSkip` fixture. -/
def decodeFix : List Nat → Except String Scene := fun _ => Except.ok sceneSkip

/-- A decoder that rejects any bytes with a diagnostic message. -/
def decodeFail : List Nat → Except String Scene := fun _ => Except.error "bad"

/-- A 32-byte buffer. -/
def bytes32 : List Nat := List.replicate 32 0

theorem claim_C1_witness :
    (FbxLoader.load mpFix decodeFix bytes32 FbxLoaderSettings.default
        ctxFix).2 =
      [Step.decode, Step.meshes, Step.materials, Step.nodes, Step.skins,
        Step.scene_build] :=
  (claim_C1_mapper_order mpFix decodeFix bytes32 FbxLoaderSettings.default
    ctxFix _ rfl).1 rfl

/-- C1 (counterexample to the claim as stated): a concrete successful load
whose mapper trace runs the mesh mapper strictly before the material mapper,
refuting "materials first, then meshes". -/
theorem claim_C1_counterexample :
    (FbxLoader.load mpFix decodeFix bytes32 FbxLoaderSettings.default
        ctxFix).1.isOk = true ∧
    (FbxLoader.load mpFix decodeFix bytes32 FbxLoaderSettings.default
        ctxFix).2 =
      [Step.decode, Step.meshes, Step.materials, Step.nodes, Step.skins,
        Step.scene_build] ∧
    (FbxLoader.load mpFix decodeFix bytes32 FbxLoaderSettings.default
        ctxFix).2.indexOf Step.meshes <
      (FbxLoader.load mpFix decodeFix bytes32 FbxLoaderSettings.default
        ctxFix).2.indexOf Step.materials := by
  refine ⟨?_, ?_, ?_⟩ <;> decide

/-! ### C2: input validation and decode failure -/

/-- C2: a buffer shorter than 32 bytes fails with the invalid-input error
(with the source's "empty" / "too small" message split) and an empty trace —
the decoder is never invoked; a 32-byte buffer reaches the decode stage; and
when the decoder rejects the bytes the load fails with the decode error
carrying the decoder's diagnostic verbatim.  All failures return
`Except.error`, so no partial asset is produced. -/
theorem claim_C2_validation_and_decode {M X I N NM K S : Type}
    (mp : Mappers M X I N NM K S) (decode : List Nat → Except String Scene)
    (bytes : List Nat) (settings : FbxLoaderSettings) (ctx : LoadContext) :
    (bytes.length < 32 →
      FbxLoader.load mp decode bytes settings ctx =
        (Except.error (FbxError.InvalidData
          (if bytes.length = 0 then "Empty FBX file" else "FBX file too small")),
          ([] : List Step))) ∧
    (bytes.length = 32 →
      Step.decode ∈ (FbxLoader.load mp decode bytes settings ctx).2) ∧
    (∀ e, 32 ≤ bytes.length → decode bytes = Except.error e →
      FbxLoader.load mp decode bytes settings ctx =
        (Except.error (FbxError.UfbxError e), [Step.decode])) := by
  refine ⟨fun h1 => ?_, fun h2 => ?_, fun e h3 hd => ?_⟩
  · cases bytes with
    | nil => simp [FbxLoader.load]
    | cons b bs =>
      rw [FbxLoader.load, if_neg (by simp), if_pos h1]
      simp
  · have h0 : ¬bytes.isEmpty = true := by
      intro hemp
      rw [List.isEmpty_iff] at hemp
      subst hemp
      simp at h2
    have h1 : ¬bytes.length < 32 := by omega
    cases hd : decode bytes with
    | error e => simp [FbxLoader.load, h0, h1, hd]
    | ok scene =>
      cases hm : mp.process_meshes scene settings.mapperView ctx with
      | error e => simp [FbxLoader.load, h0, h1, hd, hm]
      | ok quad =>
        obtain ⟨meshes, nmeshes, xt, mi⟩ := quad
        by_cases hmat : settings.load_materials.isEmptyUsage
        · obtain ⟨l, hl⟩ := load_tail_trace mp scene meshes nmeshes xt mi
            [] [] settings ctx [Step.decode, Step.meshes]
          simp [FbxLoader.load, h0, h1, hd, hm, hmat, hl]
        · obtain ⟨named, hpm⟩ := process_materials_eq scene settings ctx
          obtain ⟨l, hl⟩ := load_tail_trace mp scene meshes nmeshes xt mi
            (((scene.materials.enum).filter
                (fun p => p.2.element.element_id != 0)).map
              (fun p => (⟨p.1, build_standard_material p.2
                  (scene.textures.foldl (textures_step ctx) [])⟩ :
                MaterialHandle)))
            named settings ctx [Step.decode, Step.meshes, Step.materials]
          simp [FbxLoader.load, h0, h1, hd, hm, hmat, hpm, hl]
  · have h0 : ¬bytes.isEmpty = true := by
      intro hemp
      rw [List.isEmpty_iff] at hemp
      subst hemp
      simp at h3
    have h1 : ¬bytes.length < 32 := by omega
    simp [FbxLoader.load, h0, h1, hd]

theorem claim_C2_witness :
    FbxLoader.load mpFix decodeFix ([] : List Nat) FbxLoaderSettings.default
        ctxFix =
      (Except.error (FbxError.InvalidData "Empty FBX file"), []) ∧
    FbxLoader.load mpFix decodeFix (List.replicate 31 0)
        FbxLoaderSettings.default ctxFix =
      (Except.error (FbxError.InvalidData "FBX file too small"), []) ∧
    Step.decode ∈
      (FbxLoader.load mpFix decodeFix bytes32 FbxLoaderSettings.default
        ctxFix).2 ∧
    FbxLoader.load mpFix decodeFail bytes32 FbxLoaderSettings.default ctxFix =
      (Except.error (FbxError.UfbxError "bad"), [Step.decode]) :=
  ⟨(claim_C2_validation_and_decode mpFix decodeFix [] FbxLoaderSettings.default
      ctxFix).1 (by decide),
    (claim_C2_validation_and_decode mpFix decodeFix (List.replicate 31 0)
      FbxLoaderSettings.default ctxFix).1 (by decide),
    (claim_C2_validation_and_decode mpFix decodeFix bytes32
      FbxLoaderSettings.default ctxFix).2.1 (by decide),
    (claim_C2_validation_and_decode mpFix decodeFail bytes32
      FbxLoaderSettings.default ctxFix).2.2 "bad" (by decide) rfl⟩

/-! ### C8: load_cameras and load_lights never influence the result -/

/-- C8: two loads of the same bytes whose settings agree on everything except
the `load_cameras` and `load_lights` flags produce identical results (asset
and trace): neither flag is read anywhere in the pipeline. -/
theorem claim_C8_cameras_lights_unused {M X I N NM K S : Type}
    (mp : Mappers M X I N NM K S) (decode : List Nat → Except String Scene)
    (bytes : List Nat) (ctx : LoadContext) (s1 s2 : FbxLoaderSettings)
    (hme : s1.load_meshes = s2.load_meshes)
    (hma : s1.load_materials = s2.load_materials)
    (hin : s1.include_source = s2.include_source)
    (hcc : s1.convert_coordinates = s2.convert_coordinates) :
    FbxLoader.load mp decode bytes s1 ctx =
      FbxLoader.load mp decode bytes s2 ctx := by
  obtain ⟨a1, b1, c1, d1, e1, f1⟩ := s1
  obtain ⟨a2, b2, c2, d2, e2, f2⟩ := s2
  dsimp only at hme hma hin hcc
  subst hme
  subst hma
  subst hin
  subst hcc
  rfl

/-- Settings with cameras and lights enabled. -/
def settingsCams : FbxLoaderSettings :=
  ⟨RenderAssetUsages.default, RenderAssetUsages.default, true, true, false,
    false⟩

/-- The same settings with cameras and lights disabled. -/
def settingsNoCams : FbxLoaderSettings :=
  ⟨RenderAssetUsages.default, RenderAssetUsages.default, false, false, false,
    false⟩

theorem claim_C8_witness :
    FbxLoader.load mpFix decodeFix bytes32 settingsCams ctxFix =
      FbxLoader.load mpFix decodeFix bytes32 settingsNoCams ctxFix :=
  claim_C8_cameras_lights_unused mpFix decodeFix bytes32 ctxFix settingsCams
    settingsNoCams rfl rfl rfl rfl

end BevyUfbx
